import Mathlib

/-!
Verification of the analytical ETL pipeline (etl_logic.py / ingestion_service.py):
weekly aggregation with week-over-week deltas, isolation-forest anomaly
summarisation, narrative generation with graceful degradation, and PDF report
orchestration.

Embedding conventions:
* A polars `Date` is an integer day index; `group_by_dynamic("Date", every="1w")`
  partitions records into non-overlapping 7-day windows `weekStart d = d - d % 7`
  (the concrete day-of-week anchor polars uses shifts every window uniformly and
  affects none of the properties below).
* Float64 results are exact rationals, except where polars produces a non-number:
  `FloatVal` carries null (missing, from `shift(1)`), nan / inf (float division by
  a zero weekly spend), or an ordinary value.
* `sklearn.ensemble.IsolationForest` is an external collaborator: its
  `fit_predict` is a parameter `fit_predict : rate -> feature matrix -> labels`
  (one label per row, -1 = outlier), invoked at the contamination rate the source
  hard-codes.  Its failure on a feature matrix with no rows is modelled from the
  spec (InsufficientDataError).
* The Gemini client call and the WeasyPrint `write_pdf` are external
  collaborators, modelled as `Except`-valued parameters.  `os.getenv` for the
  credential is an `Option String` parameter, `datetime.now()` a `String`
  parameter.
* Python raising an exception is `Except.error`; a raised error propagating out
  of `transform_and_analyze` means the function returns no artifacts.
-/

/-- One input row (schema of ingestion_service.EXPECTED_SCHEMA): date (day
index), campaign id, spend, impressions, conversions, location. -/
structure Record where
  date : ℤ
  campaignId : ℤ
  spend : ℚ
  impressions : ℤ
  conversions : ℤ
  location : String
deriving DecidableEq

/-- A dataset is the list of ingested rows. -/
abbrev Dataset := List Record

/-- The errors a pipeline run can surface: the external model fit failing on an
empty feature matrix (the InsufficientDataError of the design), indexing row 0
of an empty summary, the TypeError from applying the .2f format spec to a null,
and a renderer (write_pdf) failure. -/
inductive EtlError where
  | insufficientData
  | indexError
  | formatNull
  | render (msg : String)
deriving DecidableEq

/-- A value of the WoW_Change_% Float64 column: null (polars missing value),
nan / inf / -inf (float division involving a zero weekly spend), or a number. -/
inductive FloatVal where
  | null
  | nan
  | inf
  | neginf
  | val (q : ℚ)
deriving DecidableEq

/-- Round to 2 decimal places, as polars `.round(2)` on an exact value. -/
def round2 (q : ℚ) : ℚ := (round (q * 100) : ℤ) / 100

/-- Start of the 7-day window containing day `d` (polars
`group_by_dynamic every="1w"`). -/
def weekStart (d : ℤ) : ℤ := d - d % 7

/-- Insert a week key into an ascending list of distinct week keys. -/
def insertKey (w : ℤ) : List ℤ → List ℤ
  | [] => [w]
  | x :: xs => if w < x then w :: x :: xs else if w = x then x :: xs else x :: insertKey w xs

/-- The distinct week-window starts of a dataset, ascending (the group keys of
`group_by_dynamic` after `.sort("Date")`). -/
def sortedWeeks (df : Dataset) : List ℤ :=
  df.foldr (fun r acc => insertKey (weekStart r.date) acc) []

/-- Total spend of the records falling in the week starting at `w`
(`pl.col("Spend").sum()` within one window). -/
def weeklySpend (df : Dataset) (w : ℤ) : ℚ :=
  ((df.filter (fun r => weekStart r.date == w)).map Record.spend).sum

/-- The WoW cell for a week with spend `cur` whose predecessor has spend
`prev`: `((cur / prev - 1) * 100).round(2)` under Float64 semantics (division
by a zero `prev` gives nan or a signed infinity, which survive `- 1`, `* 100`
and `round` unchanged). -/
def wowChange (cur prev : ℚ) : FloatVal :=
  if prev = 0 then
    if cur = 0 then FloatVal.nan else if 0 < cur then FloatVal.inf else FloatVal.neginf
  else FloatVal.val (round2 ((cur / prev - 1) * 100))

/-- The WoW cells after the first row: each week against its predecessor. -/
def wowTail (prev : ℚ) : List ℚ → List FloatVal
  | [] => []
  | s :: rest => wowChange s prev :: wowTail s rest

/-- The whole WoW_Change_% column: `shift(1)` leaves the first cell null. -/
def wowColumn : List ℚ → List FloatVal
  | [] => []
  | s :: rest => FloatVal.null :: wowTail s rest

/-- One row of the weekly frame df_weekly: window start, summed spend, WoW cell. -/
structure WeeklyRow where
  date : ℤ
  weekly_spend : ℚ
  wow_change : FloatVal
deriving DecidableEq

/-- Zip the three columns of df_weekly into rows. -/
def mkRows : List ℤ → List ℚ → List FloatVal → List WeeklyRow
  | w :: ws, s :: ss, c :: cs => ⟨w, s, c⟩ :: mkRows ws ss cs
  | _, _, _ => []

/-- calculate_weekly_metrics (etl_logic.py lines 17-34): group by 1-week
windows, sum Spend, sort by Date ascending, then append the WoW_Change_%
column computed against the shifted column. -/
def calculate_weekly_metrics (df : Dataset) : List WeeklyRow :=
  let weeks := sortedWeeks df
  let spends := weeks.map (weeklySpend df)
  mkRows weeks spends (wowColumn spends)

/-- The per-record feature vector `df.select(["Spend", "Impressions",
"Conversions"])`. -/
abbrev Features := ℚ × ℤ × ℤ

/-- The feature matrix handed to the model, one row per record. -/
def features_of (df : Dataset) : List Features :=
  df.map (fun r => (r.spend, r.impressions, r.conversions))

/-- The contamination rate: hard-coded to 0.05 in detect_anomalies
(etl_logic.py line 47), not exposed as a parameter. -/
def contamination : ℚ := 5 / 100

/-- One row of the anomaly summary frame: location, anomaly count, mean spend
among the anomalies there (rounded to 2 decimals). -/
structure SummaryRow where
  location : Option String
  anomalyCount : ℕ
  avgAnomalySpend : ℚ
deriving DecidableEq

/-- The degenerate no-anomaly sentinel
`{"Location": [None], "Anomaly_Count": [0], "Avg_Anomaly_Spend": [0.0]}`. -/
def sentinelSummary : List SummaryRow := [⟨none, 0, 0⟩]

/-- The distinct locations of a list of records in first-occurrence order (the
group keys of `group_by(["Location"])`; polars fixes no group order, this
models one realisable order). -/
def locationKeys : List String → List String
  | [] => []
  | x :: xs => x :: (locationKeys xs).filter (fun y => y ≠ x)

/-- The summary row of one location group: `pl.count()` and the rounded mean
of Spend over the group. -/
def groupRow (rs : List Record) (loc : String) : SummaryRow :=
  let g := rs.filter (fun r => r.location == loc)
  ⟨some loc, g.length, round2 (((g.map Record.spend).sum) / g.length)⟩

/-- Insert into a count-descending list, before the first row whose count is
not greater (a stable descending insertion: rows of equal count keep their
relative order). -/
def insertByCount (r : SummaryRow) : List SummaryRow → List SummaryRow
  | [] => [r]
  | x :: xs =>
    if x.anomalyCount > r.anomalyCount then x :: insertByCount r xs else r :: x :: xs

/-- `.sort("Anomaly_Count", descending=True)` — by count only, no further key. -/
def sortByCountDesc : List SummaryRow → List SummaryRow
  | [] => []
  | r :: rest => insertByCount r (sortByCountDesc rest)

/-- detect_anomalies (etl_logic.py lines 38-70): select the three numeric
features, fit-predict the isolation forest at the hard-coded contamination
(`fit_predict` is the external model; its failure on a feature matrix with
fewer than 1 row is modelled from the spec, InsufficientDataError), keep the
records labelled -1, return the sentinel when none are, otherwise group by
location, aggregate count and rounded mean spend, and sort by count
descending. -/
def detect_anomalies (fit_predict : ℚ → List Features → List ℤ) (df : Dataset) :
    Except EtlError (List SummaryRow) :=
  let features := features_of df
  if features.length < 1 then Except.error EtlError.insufficientData
  else
    let preds := fit_predict contamination features
    let anomaly_df := ((df.zip preds).filter (fun p => p.2 == -1)).map Prod.fst
    if anomaly_df.isEmpty then Except.ok sentinelSummary
    else
      Except.ok (sortByCountDesc
        ((locationKeys (anomaly_df.map Record.location)).map (groupRow anomaly_df)))

/-- Modelled from the spec: the spec gives the detector the contract
`detect(dataset, contamination_rate)` with the rate as a configuration knob.
The source function takes no such parameter (the rate is the constant 0.05
inside it), so a requested rate is necessarily discarded and the source
detector is run as-is. -/
def detect_anomalies_at (_requested_rate : ℚ)
    (fit_predict : ℚ → List Features → List ℤ) (df : Dataset) :
    Except EtlError (List SummaryRow) :=
  detect_anomalies fit_predict df

/-- Location cell rendered into Python text (None prints as "None"). -/
def optLoc (o : Option String) : String := o.getD ("None")

/-- fetch_external_context (etl_logic.py lines 75-86): row 0 of an empty
summary raises; a zero count short-circuits; otherwise the simulated weather
text for the first location. -/
def fetch_external_context : List SummaryRow → Except EtlError String
  | [] => Except.error EtlError.indexError
  | r :: _ =>
    if r.anomalyCount = 0 then
      Except.ok ("No anomalies detected, no external context needed.")
    else
      Except.ok ("External data shows that on the day(s) of the anomaly in **" ++
        optLoc r.location ++
        "**, there was a severe thunderstorm warning, often correlated with low foot traffic and reduced ad conversion rates.")

/-- The fixed placeholder returned when GEMINI_API_KEY is absent. -/
def placeholder_no_key : String :=
  "AI Analysis placeholder: GEMINI_API_KEY not set. Cannot run analysis."

/-- The placeholder head used when the generation call raises; the error
detail is appended to it. -/
def ai_fail_msg : String :=
  "AI Analysis failed. Please check your API key and connection. Error: "

/-- One summary row as `write_json(row_oriented=True)` lays it out. -/
def summaryRowJson (r : SummaryRow) : String :=
  "\x7b\"Location\":" ++
    (match r.location with
      | none => "null"
      | some l => "\"" ++ l ++ "\"") ++
    ",\"Anomaly_Count\":" ++ toString r.anomalyCount ++
    ",\"Avg_Anomaly_Spend\":" ++ toString r.avgAnomalySpend ++ "\x7d"

/-- The JSON-encoded anomaly summary embedded in the prompt. -/
def anomaliesJson (s : List SummaryRow) : String :=
  "[" ++ String.intercalate (",") (s.map summaryRowJson) ++ "]"

/-- The few-shot prompt of generate_analysis (persona instruction, example,
current data, task), with the JSON summary and the context interpolated. -/
def promptText (dataStr ctx : String) : String :=
  "SYSTEM INSTRUCTION: You are a **Senior Data Analyst**. Your response must be extremely concise, professional, and actionable. Your analysis must not exceed 100 words. Do not include any titles or introductory phrases.\n\nFEW-SHOT EXAMPLE:\nInput: Anomalies detected in Location: Dallas, Avg_Anomaly_Spend: $500. External Context: Local sports team won a championship, leading to high consumer spending but low campaign-specific conversions.\nOutput: Dallas showed an unexpected spending spike (+15%) paired with suppressed conversions. This correlates with major local sporting events diverting user attention. **Actionable Insight:** Pause non-event-related campaigns immediately during major local events to conserve budget.\n\nCURRENT DATA:\nPerformance Anomalies (JSON Summary): " ++
  dataStr ++ "\nCorrelated External Data (Weather/Context): " ++ ctx ++
  "\n\nTASK: Write a 1-paragraph explanation of the detected anomaly, correlating the performance drop (or spike) with the external context. Focus on the why and suggest a clear, concise action."

/-- generate_analysis (etl_logic.py lines 88-122): with no credential, the
fixed placeholder and no call to the collaborator; otherwise serialise the
summary, fetch context, build the prompt and make the one call
(`callModel` is the external `client.models.generate_content`; its success
value is stripped, any raised error is caught and reported inside a
placeholder carrying the detail). -/
def generate_analysis (apiKey : Option String)
    (callModel : String → Except String String) (anomalies_summary : List SummaryRow) :
    Except EtlError String :=
  match apiKey with
  | none => Except.ok placeholder_no_key
  | some _ => do
    let dataStr := anomaliesJson anomalies_summary
    let ctx ← fetch_external_context anomalies_summary
    match callModel (promptText dataStr ctx) with
    | Except.ok t => Except.ok t.trim
    | Except.error e => Except.ok (ai_fail_msg ++ e)

/-- Two decimal digits with a leading zero. -/
def pad2 (n : ℕ) : String := if n < 10 then "0" ++ toString n else toString n

/-- Fixed-point rendering of a number under the `.2f` format spec (rendered
from the exact rational; the claims below never depend on the digits). -/
def fmt2 (q : ℚ) : String :=
  let cents : ℤ := round (q * 100)
  (if cents < 0 then "-" else "") ++
    toString (cents.natAbs / 100) ++ "." ++ pad2 (cents.natAbs % 100)

/-- A WoW cell under the `.2f` format spec: formatting the null raises
`TypeError: unsupported format string passed to NoneType.__format__`; the
float non-numbers format as their names. -/
def fmtWow : FloatVal → Except EtlError String
  | FloatVal.null => Except.error EtlError.formatNull
  | FloatVal.nan => Except.ok ("nan")
  | FloatVal.inf => Except.ok ("inf")
  | FloatVal.neginf => Except.ok ("-inf")
  | FloatVal.val q => Except.ok (fmt2 q)

/-- One `<tr>` of the report table:
`f"<tr><td>{row[0]}</td><td>${row[1]:.2f}</td><td>{row[2]:.2f}%</td></tr>"`. -/
def renderWeeklyRow (r : WeeklyRow) : Except EtlError String := do
  let w ← fmtWow r.wow_change
  Except.ok ("<tr><td>" ++ toString r.date ++ "</td><td>$" ++ fmt2 r.weekly_spend ++
    "</td><td>" ++ w ++ "%</td></tr>")

/-- The `"".join(...)` over the weekly rows; the first raising row aborts. -/
def renderRows : List WeeklyRow → Except EtlError String
  | [] => Except.ok ("")
  | r :: rest => do
    let a ← renderWeeklyRow r
    let b ← renderRows rest
    Except.ok (a ++ b)

/-- The HTML template of generate_pdf_report with the analysis text, the table
body and the timestamp interpolated (the style block is carried verbatim with
its braces escaped). -/
def htmlContent (ai_analysis_text rowsHtml now : String) : String :=
  "<html><head><title>Weekly Performance Report</title><style>body \x7b font-family: Arial, sans-serif; padding: 20px; \x7d table \x7b width: 100%; border-collapse: collapse; margin-top: 15px; \x7d</style></head><body><h1>Weekly Performance Report</h1><h2>AI Analyst Summary (The WHY)</h2><div class=\"analysis\"><p>" ++
  ai_analysis_text ++
  "</p></div><h2>Week-over-Week Spend Change</h2><table><thead><tr><th>Date</th><th>Weekly Spend</th><th>WoW Change %</th></tr></thead><tbody>" ++
  rowsHtml ++
  "</tbody></table><div class=\"footer\"><p>Report Generated by Automated ETL Pipeline: " ++
  now ++ "</p></div></body></html>"

/-- `os.path.basename`: the last `/`-separated component. -/
def basename (p : String) : String := (p.splitOn ("/")).getLastD p

/-- `os.path.dirname`: everything before the last `/`-separated component. -/
def dirname (p : String) : String :=
  String.intercalate ("/") ((p.splitOn ("/")).dropLast)

/-- The report path: the input base name with `.csv` replaced by
`_Report.pdf`, joined back onto the input directory. -/
def outputPath (file_path : String) : String :=
  let name := (basename file_path).replace (".csv") ("_Report.pdf")
  let dir := dirname file_path
  if dir = "" then name else dir ++ "/" ++ name

/-- generate_pdf_report (etl_logic.py lines 126-179): build the HTML (the
f-string formats every table cell, so a null WoW raises here), derive the
output path, and hand the document to the external renderer `write_pdf`
(WeasyPrint); a renderer failure surfaces as a RenderError. -/
def generate_pdf_report (write_pdf : String → String → Except String Unit)
    (df_weekly : List WeeklyRow) (ai_analysis_text : String) (now file_path : String) :
    Except EtlError Unit := do
  let rowsHtml ← renderRows df_weekly
  let html := htmlContent ai_analysis_text rowsHtml now
  match write_pdf (outputPath file_path) html with
  | Except.ok _ => Except.ok ()
  | Except.error m => Except.error (EtlError.render m)

/-- transform_and_analyze (etl_logic.py lines 183-197): weekly metrics, then
anomaly detection, then the AI analysis, then the PDF; the artifact pair is
returned only after every stage has succeeded — a raised error anywhere
propagates and nothing is returned. -/
def transform_and_analyze (fit_predict : ℚ → List Features → List ℤ)
    (apiKey : Option String) (callModel : String → Except String String)
    (write_pdf : String → String → Except String Unit)
    (now : String) (df : Dataset) (file_path : String) :
    Except EtlError (List WeeklyRow × List SummaryRow) := do
  let df_weekly := calculate_weekly_metrics df
  let anomalies_summary ← detect_anomalies fit_predict df
  let ai_analysis_text ← generate_analysis apiKey callModel anomalies_summary
  let _ ← generate_pdf_report write_pdf df_weekly ai_analysis_text now file_path
  Except.ok (df_weekly, anomalies_summary)

/-! ## Predicates used in claim statements -/

/-- The relation the claim asserts between a weekly bucket and its
chronological predecessor: whenever the predecessor has nonzero spend, the
change cell carries `round((current / previous - 1) * 100, 2)`. -/
def wowRel (a b : WeeklyRow) : Prop :=
  a.weekly_spend ≠ 0 →
    b.wow_change = FloatVal.val (round2 ((b.weekly_spend / a.weekly_spend - 1) * 100))

/-- The dataset with every Spend multiplied by the constant `c`. -/
def scaleSpend (c : ℚ) (df : Dataset) : Dataset :=
  df.map (fun r => ⟨r.date, r.campaignId, c * r.spend, r.impressions, r.conversions, r.location⟩)

/-- Lexicographic strict order on character lists by code point. -/
def charsLt : List Char → List Char → Bool
  | [], [] => false
  | [], _ :: _ => true
  | _ :: _, [] => false
  | a :: as, b :: bs =>
    if a.toNat < b.toNat then true
    else if b.toNat < a.toNat then false
    else charsLt as bs

/-- Lexicographic strict order on strings by code point. -/
def strLt (a b : String) : Bool := charsLt a.data b.data

/-- The order the claim asserts of summary rows: count strictly descending,
and location ascending between rows of equal count (a missing location reads
as the empty string). -/
def countDescLocAsc : List SummaryRow → Bool
  | [] => true
  | [_] => true
  | a :: b :: rest =>
    (decide (b.anomalyCount < a.anomalyCount) ||
      (decide (a.anomalyCount = b.anomalyCount) &&
        strLt (a.location.getD ("")) (b.location.getD ("")))) &&
    countDescLocAsc (b :: rest)

/-! ## Concrete fixtures used by witnesses and counterexamples -/

/-- The summary the detector produces on `[recB, recA]` with every record
flagged: counts tie and location B precedes location A. -/
def rowsBA : List SummaryRow := [⟨some ("B"), 1, 50⟩, ⟨some ("A"), 1, 70⟩]

/-- One record: day 0, campaign 1, spend 100, location A. -/
def rec1 : Record := ⟨0, 1, 100, 1000, 10, "A"⟩

/-- A second record in a later week (day 7), spend 150. -/
def rec2 : Record := ⟨7, 1, 150, 1200, 12, "A"⟩

/-- A record at location B on day 0. -/
def recB : Record := ⟨0, 1, 50, 1000, 10, "B"⟩

/-- A record at location A on day 1. -/
def recA : Record := ⟨1, 2, 70, 900, 9, "A"⟩

/-- An isolation-forest stand-in labelling every record an inlier. -/
def fpAllIn : ℚ → List Features → List ℤ := fun _ fs => fs.map (fun _ => 1)

/-- An isolation-forest stand-in labelling every record an outlier. -/
def fpAllOut : ℚ → List Features → List ℤ := fun _ fs => fs.map (fun _ => -1)

/-- An isolation-forest stand-in that flags the first row exactly when fit at
a nonzero contamination rate: fit at a true rate of 0 it finds nothing. -/
def fpRate : ℚ → List Features → List ℤ := fun c fs =>
  match fs with
  | [] => []
  | _ :: rest => (if c = 0 then 1 else -1) :: rest.map (fun _ => 1)

/-- A generation collaborator that answers every prompt. -/
def callOk : String → Except String String := fun _ => Except.ok ("analysis text")

/-- A renderer that fails on every document. -/
def wpFail : String → String → Except String Unit :=
  fun _ _ => Except.error ("PDF backend unavailable")

/-- A renderer that accepts every document. -/
def wpOk : String → String → Except String Unit := fun _ _ => Except.ok ()

/-! ## Weekly aggregator lemmas -/

theorem sortedWeeks_cons (r : Record) (df : Dataset) :
    sortedWeeks (r :: df) = insertKey (weekStart r.date) (sortedWeeks df) := rfl

theorem insertKey_ne_nil (w : ℤ) (l : List ℤ) : insertKey w l ≠ [] := by
  cases l with
  | nil => simp [insertKey]
  | cons x xs =>
    simp only [insertKey]
    split
    · simp
    · split <;> simp

theorem mem_insertKey {a w : ℤ} {l : List ℤ} : a ∈ insertKey w l ↔ a = w ∨ a ∈ l := by
  induction l with
  | nil => simp [insertKey]
  | cons x xs ih =>
    simp only [insertKey]
    split
    · simp [List.mem_cons]
    · split
      · rename_i hlt heq
        subst heq
        simp [List.mem_cons]
      · simp [List.mem_cons, ih]
        tauto

theorem insertKey_sorted {w : ℤ} {l : List ℤ} (h : l.Sorted (· < ·)) :
    (insertKey w l).Sorted (· < ·) := by
  induction l with
  | nil => simp [insertKey]
  | cons x xs ih =>
    rw [List.sorted_cons] at h
    obtain ⟨hx, hxs⟩ := h
    simp only [insertKey]
    split
    · rename_i hwx
      refine List.sorted_cons.2 ⟨?_, List.sorted_cons.2 ⟨hx, hxs⟩⟩
      intro b hb
      rcases List.mem_cons.1 hb with rfl | hb
      · exact hwx
      · exact hwx.trans (hx b hb)
    · rename_i hwx
      split
      · exact List.sorted_cons.2 ⟨hx, hxs⟩
      · rename_i hne
        refine List.sorted_cons.2 ⟨?_, ih hxs⟩
        intro b hb
        rcases mem_insertKey.1 hb with rfl | hb
        · omega
        · exact hx b hb

theorem sortedWeeks_sorted (df : Dataset) : (sortedWeeks df).Sorted (· < ·) := by
  induction df with
  | nil => exact List.sorted_nil
  | cons r rest ih =>
    rw [sortedWeeks_cons]
    exact insertKey_sorted ih

theorem mem_sortedWeeks {w : ℤ} {df : Dataset} :
    w ∈ sortedWeeks df ↔ w ∈ df.map (fun r => weekStart r.date) := by
  induction df with
  | nil => simp [sortedWeeks]
  | cons r rest ih => simp [sortedWeeks_cons, mem_insertKey, ih]

theorem sortedWeeks_nodup (df : Dataset) : (sortedWeeks df).Nodup :=
  (sortedWeeks_sorted df).nodup

theorem sortedWeeks_length (df : Dataset) :
    (sortedWeeks df).length = ((df.map (fun r => weekStart r.date)).dedup).length := by
  have hperm : List.Perm (sortedWeeks df) ((df.map (fun r => weekStart r.date)).dedup) := by
    rw [List.perm_ext_iff_of_nodup (sortedWeeks_nodup df) (List.nodup_dedup _)]
    intro a
    rw [mem_sortedWeeks, List.mem_dedup]
  exact hperm.length_eq

theorem sortedWeeks_ne_nil {df : Dataset} (h : df ≠ []) : sortedWeeks df ≠ [] := by
  cases df with
  | nil => exact absurd rfl h
  | cons r rest =>
    rw [sortedWeeks_cons]
    exact insertKey_ne_nil _ _

theorem wowTail_length (prev : ℚ) (ss : List ℚ) : (wowTail prev ss).length = ss.length := by
  induction ss generalizing prev with
  | nil => rfl
  | cons s rest ih => simp [wowTail, ih]

theorem wowColumn_length (ss : List ℚ) : (wowColumn ss).length = ss.length := by
  cases ss with
  | nil => rfl
  | cons s rest => simp [wowColumn, wowTail_length]

theorem mkRows_length (ws : List ℤ) : ∀ (ss : List ℚ) (cs : List FloatVal),
    ss.length = ws.length → cs.length = ws.length → (mkRows ws ss cs).length = ws.length := by
  induction ws with
  | nil =>
    intro ss cs h1 h2
    cases ss <;> cases cs <;> simp_all [mkRows]
  | cons w ws ih =>
    intro ss cs h1 h2
    cases ss with
    | nil => simp at h1
    | cons s ss =>
      cases cs with
      | nil => simp at h2
      | cons c cs =>
        simp only [mkRows, List.length_cons]
        rw [ih ss cs (by simpa using h1) (by simpa using h2)]

theorem mkRows_map_date (ws : List ℤ) : ∀ (ss : List ℚ) (cs : List FloatVal),
    ss.length = ws.length → cs.length = ws.length →
    (mkRows ws ss cs).map WeeklyRow.date = ws := by
  induction ws with
  | nil =>
    intro ss cs h1 h2
    cases ss <;> cases cs <;> simp_all [mkRows]
  | cons w ws ih =>
    intro ss cs h1 h2
    cases ss with
    | nil => simp at h1
    | cons s ss =>
      cases cs with
      | nil => simp at h2
      | cons c cs =>
        simp only [mkRows, List.map_cons]
        rw [ih ss cs (by simpa using h1) (by simpa using h2)]

theorem mkRows_map_wow (ws : List ℤ) : ∀ (ss : List ℚ) (cs : List FloatVal),
    ss.length = ws.length → cs.length = ws.length →
    (mkRows ws ss cs).map WeeklyRow.wow_change = cs := by
  induction ws with
  | nil =>
    intro ss cs h1 h2
    cases ss <;> cases cs <;> simp_all [mkRows]
  | cons w ws ih =>
    intro ss cs h1 h2
    cases ss with
    | nil => simp at h1
    | cons s ss =>
      cases cs with
      | nil => simp at h2
      | cons c cs =>
        simp only [mkRows, List.map_cons]
        rw [ih ss cs (by simpa using h1) (by simpa using h2)]

theorem chain_mkRows (ss : List ℚ) : ∀ (ws : List ℤ) (prev : ℚ) (c : FloatVal),
    ws.length = ss.length + 1 →
    List.Chain' wowRel (mkRows ws (prev :: ss) (c :: wowTail prev ss)) := by
  induction ss with
  | nil =>
    intro ws prev c h
    match ws with
    | [w] => simp [mkRows, wowTail]
  | cons s ss ih =>
    intro ws prev c h
    match ws with
    | w :: w2 :: ws2 =>
      have h2 : (w2 :: ws2).length = ss.length + 1 := by simpa using h
      rw [show wowTail prev (s :: ss) = wowChange s prev :: wowTail s ss from rfl]
      rw [show mkRows (w :: w2 :: ws2) (prev :: s :: ss)
            (c :: wowChange s prev :: wowTail s ss) =
          (⟨w, prev, c⟩ : WeeklyRow) ::
            mkRows (w2 :: ws2) (s :: ss) (wowChange s prev :: wowTail s ss) from rfl]
      apply List.chain'_cons'.2
      refine ⟨?_, ih (w2 :: ws2) s (wowChange s prev) h2⟩
      intro b hb
      rw [show mkRows (w2 :: ws2) (s :: ss) (wowChange s prev :: wowTail s ss) =
          (⟨w2, s, wowChange s prev⟩ : WeeklyRow) :: mkRows ws2 ss (wowTail s ss) from rfl] at hb
      simp only [List.head?_cons, Option.mem_def, Option.some.injEq] at hb
      subst hb
      intro hprev
      show wowChange s prev = _
      rw [wowChange, if_neg hprev]

theorem sortedWeeks_scale (c : ℚ) (df : Dataset) :
    sortedWeeks (scaleSpend c df) = sortedWeeks df := by
  induction df with
  | nil => rfl
  | cons r rest ih =>
    show insertKey (weekStart r.date) (sortedWeeks (scaleSpend c rest)) =
      insertKey (weekStart r.date) (sortedWeeks rest)
    rw [ih]

theorem filter_scaleSpend (c : ℚ) (df : Dataset) (w : ℤ) :
    (scaleSpend c df).filter (fun r => weekStart r.date == w) =
      scaleSpend c (df.filter (fun r => weekStart r.date == w)) := by
  induction df with
  | nil => rfl
  | cons r rest ih =>
    simp only [scaleSpend, List.map_cons, List.filter_cons] at *
    by_cases h : weekStart r.date == w
    · simp only [h, if_pos, ite_true]
      rw [List.map_cons]
      exact congrArg _ ih
    · simp only [h] at *
      simpa using ih

theorem map_spend_scaleSpend (c : ℚ) (rs : List Record) :
    (scaleSpend c rs).map Record.spend = rs.map (fun r => c * r.spend) := by
  induction rs with
  | nil => rfl
  | cons r rest ih =>
    simp only [scaleSpend, List.map_cons] at *
    rw [ih]

theorem weeklySpend_scale (c : ℚ) (df : Dataset) (w : ℤ) :
    weeklySpend (scaleSpend c df) w = c * weeklySpend df w := by
  rw [weeklySpend, weeklySpend, filter_scaleSpend, map_spend_scaleSpend]
  rw [show (fun r => c * Record.spend r) = (fun r => c * Record.spend r) from rfl]
  exact List.sum_map_mul_left _ _ _

theorem wowChange_scale {c : ℚ} (hc : 0 < c) (cur prev : ℚ) :
    wowChange (c * cur) (c * prev) = wowChange cur prev := by
  have hcne : c ≠ 0 := ne_of_gt hc
  unfold wowChange
  by_cases hp : prev = 0
  · have hp2 : c * prev = 0 := by rw [hp, mul_zero]
    rw [if_pos hp, if_pos hp2]
    by_cases hq : cur = 0
    · have : c * cur = 0 := by rw [hq, mul_zero]
      rw [if_pos hq, if_pos this]
    · have hq2 : c * cur ≠ 0 := mul_ne_zero hcne hq
      rw [if_neg hq, if_neg hq2]
      by_cases h0 : 0 < cur
      · rw [if_pos h0, if_pos (mul_pos hc h0)]
      · have hneg : cur < 0 := lt_of_le_of_ne (not_lt.1 h0) hq
        have : ¬0 < c * cur := not_lt.2 (mul_neg_of_pos_of_neg hc hneg).le
        rw [if_neg h0, if_neg this]
  · have hp2 : c * prev ≠ 0 := mul_ne_zero hcne hp
    rw [if_neg hp, if_neg hp2, mul_div_mul_left _ _ hcne]

theorem wowTail_scale {c : ℚ} (hc : 0 < c) (prev : ℚ) (ss : List ℚ) :
    wowTail (c * prev) (ss.map (fun s => c * s)) = wowTail prev ss := by
  induction ss generalizing prev with
  | nil => rfl
  | cons s rest ih =>
    simp only [List.map_cons, wowTail]
    rw [wowChange_scale hc, ih]

theorem wowColumn_scale {c : ℚ} (hc : 0 < c) (ss : List ℚ) :
    wowColumn (ss.map (fun s => c * s)) = wowColumn ss := by
  cases ss with
  | nil => rfl
  | cons s rest =>
    simp only [List.map_cons, wowColumn]
    rw [wowTail_scale hc]

/-! ## Anomaly detector lemmas -/

theorem insertByCount_ne_nil (r : SummaryRow) (l : List SummaryRow) :
    insertByCount r l ≠ [] := by
  cases l with
  | nil => simp [insertByCount]
  | cons x xs =>
    simp only [insertByCount]
    split <;> simp

theorem mem_insertByCount {a r : SummaryRow} {l : List SummaryRow} :
    a ∈ insertByCount r l ↔ a = r ∨ a ∈ l := by
  induction l with
  | nil => simp [insertByCount]
  | cons x xs ih =>
    simp only [insertByCount]
    split
    · simp [List.mem_cons, ih]
      tauto
    · simp [List.mem_cons]

theorem mem_sortByCountDesc {a : SummaryRow} {l : List SummaryRow} :
    a ∈ sortByCountDesc l ↔ a ∈ l := by
  induction l with
  | nil => simp [sortByCountDesc]
  | cons r rest ih =>
    show a ∈ insertByCount r (sortByCountDesc rest) ↔ _
    simp [mem_insertByCount, ih]

theorem sortByCountDesc_ne_nil {l : List SummaryRow} (h : l ≠ []) :
    sortByCountDesc l ≠ [] := by
  cases l with
  | nil => exact absurd rfl h
  | cons r rest => exact insertByCount_ne_nil r (sortByCountDesc rest)

theorem insertByCount_sorted {r : SummaryRow} {l : List SummaryRow}
    (h : l.Sorted (fun a b => b.anomalyCount ≤ a.anomalyCount)) :
    (insertByCount r l).Sorted (fun a b => b.anomalyCount ≤ a.anomalyCount) := by
  induction l with
  | nil => simp [insertByCount]
  | cons x xs ih =>
    rw [List.sorted_cons] at h
    obtain ⟨hx, hxs⟩ := h
    simp only [insertByCount]
    split
    · rename_i hgt
      refine List.sorted_cons.2 ⟨?_, ih hxs⟩
      intro b hb
      rcases mem_insertByCount.1 hb with rfl | hb
      · omega
      · exact hx b hb
    · rename_i hle
      refine List.sorted_cons.2 ⟨?_, List.sorted_cons.2 ⟨hx, hxs⟩⟩
      intro b hb
      rcases List.mem_cons.1 hb with rfl | hb
      · omega
      · have := hx b hb
        omega

theorem sortByCountDesc_sorted (l : List SummaryRow) :
    (sortByCountDesc l).Sorted (fun a b => b.anomalyCount ≤ a.anomalyCount) := by
  induction l with
  | nil => simp [sortByCountDesc]
  | cons r rest ih => exact insertByCount_sorted ih

theorem detect_anomalies_nil (fp : ℚ → List Features → List ℤ) :
    detect_anomalies fp [] = Except.error EtlError.insufficientData := rfl

theorem features_len_ok {df : Dataset} (h : df ≠ []) :
    ¬ (features_of df).length < 1 := by
  have := List.length_pos.2 h
  simp only [features_of, List.length_map]
  omega

theorem detect_ok_of_ne_nil (fp : ℚ → List Features → List ℤ) (df : Dataset)
    (h : df ≠ []) : ∃ s, detect_anomalies fp df = Except.ok s ∧ s ≠ [] := by
  simp only [detect_anomalies, if_neg (features_len_ok h)]
  by_cases he :
      (((df.zip (fp contamination (features_of df))).filter
        (fun p => p.2 == -1)).map Prod.fst).isEmpty
  · refine ⟨sentinelSummary, ?_, by simp [sentinelSummary]⟩
    rw [if_pos he]
  · rw [if_neg he]
    refine ⟨_, rfl, ?_⟩
    apply sortByCountDesc_ne_nil
    rw [List.isEmpty_iff] at he
    cases hA : ((df.zip (fp contamination (features_of df))).filter
        (fun p => p.2 == -1)).map Prod.fst with
    | nil => exact absurd hA he
    | cons x xs =>
      simp [locationKeys]

/-! ## Narrative and orchestrator lemmas -/

theorem fetch_ok_of_ne_nil {s : List SummaryRow} (h : s ≠ []) :
    ∃ c, fetch_external_context s = Except.ok c := by
  cases s with
  | nil => exact absurd rfl h
  | cons r rest =>
    simp only [fetch_external_context]
    by_cases hc : r.anomalyCount = 0 <;> simp [hc]

theorem generate_analysis_ok (key : Option String)
    (call : String → Except String String) {s : List SummaryRow} (h : s ≠ []) :
    ∃ t, generate_analysis key call s = Except.ok t := by
  cases key with
  | none => exact ⟨placeholder_no_key, rfl⟩
  | some k =>
    obtain ⟨c, hcEq⟩ := fetch_ok_of_ne_nil h
    simp only [generate_analysis, hcEq, Bind.bind, Except.bind]
    cases call (promptText (anomaliesJson s) c) <;> simp

theorem renderRows_formatNull {df : Dataset} (h : df ≠ []) :
    renderRows (calculate_weekly_metrics df) = Except.error EtlError.formatNull := by
  obtain ⟨w, ws, hW⟩ : ∃ w ws, sortedWeeks df = w :: ws := by
    cases hS : sortedWeeks df with
    | nil => exact absurd hS (sortedWeeks_ne_nil h)
    | cons w ws => exact ⟨w, ws, rfl⟩
  simp only [calculate_weekly_metrics, hW, List.map_cons, wowColumn, mkRows]
  simp [renderRows, renderWeeklyRow, fmtWow, Bind.bind, Except.bind]

theorem generate_pdf_report_formatNull (wp : String → String → Except String Unit)
    {df : Dataset} (h : df ≠ []) (text now path : String) :
    generate_pdf_report wp (calculate_weekly_metrics df) text now path =
      Except.error EtlError.formatNull := by
  simp only [generate_pdf_report, Bind.bind, Except.bind, renderRows_formatNull h]

theorem pipeline_formatNull (fp : ℚ → List Features → List ℤ) (key : Option String)
    (call : String → Except String String) (wp : String → String → Except String Unit)
    (now path : String) {df : Dataset} (h : df ≠ []) :
    transform_and_analyze fp key call wp now df path = Except.error EtlError.formatNull := by
  obtain ⟨s, hs, hsne⟩ := detect_ok_of_ne_nil fp df h
  obtain ⟨t, ht⟩ := generate_analysis_ok key call hsne
  simp only [transform_and_analyze, Bind.bind, Except.bind, hs, ht,
    generate_pdf_report_formatNull wp h]

theorem pipeline_empty (fp : ℚ → List Features → List ℤ) (key : Option String)
    (call : String → Except String String) (wp : String → String → Except String Unit)
    (now path : String) :
    transform_and_analyze fp key call wp now [] path =
      Except.error EtlError.insufficientData := rfl

/-! ## The claims -/

/-- C1: the claim says an undefined WoW change is rendered with a literal
"N/A"-style marker and never as zero.  The aggregator does keep the undefined
change as null (not zero), but the report has no such marker: the f-string
applies the .2f format spec to the null cell and raises TypeError, so the
document for a one-record dataset (one bucket, undefined change) is never
produced.  This theorem evaluates the code at that failing input. -/
theorem C1_undefined_wow_never_rendered :
    (calculate_weekly_metrics [rec1]).map WeeklyRow.wow_change = [FloatVal.null]
    ∧ renderRows (calculate_weekly_metrics [rec1]) = Except.error EtlError.formatNull := by
  constructor
  · simp [calculate_weekly_metrics, sortedWeeks, insertKey, weekStart, weeklySpend,
      wowColumn, wowTail, mkRows, rec1]
  · exact renderRows_formatNull (by simp)

/-- C2: for every dataset with at least one weekly bucket (equivalently, any
nonempty dataset), the table formatting raises on the first bucket's null WoW
cell, so transform_and_analyze surfaces that error — independently of the
model, the credential, the generation collaborator and the renderer — and
returns no artifact pair, and no PDF is written. -/
theorem C2_pipeline_crashes_formatting (df : Dataset)
    (fp : ℚ → List Features → List ℤ) (key : Option String)
    (call : String → Except String String) (wp : String → String → Except String Unit)
    (now path : String) (h : df ≠ []) :
    transform_and_analyze fp key call wp now df path = Except.error EtlError.formatNull :=
  pipeline_formatNull fp key call wp now path h

/-- Witness for C2 at a one-record dataset. -/
theorem C2_pipeline_crashes_formatting_witness :
    transform_and_analyze fpAllIn none callOk wpOk ("2025-01-01") [rec1] ("data.csv") =
      Except.error EtlError.formatNull :=
  C2_pipeline_crashes_formatting [rec1] fpAllIn none callOk wpOk ("2025-01-01")
    ("data.csv") (by simp)

/-- C3 counterexample: with a renderer that fails on every document, a
render failure surfaces as an error (first conjunct, on a well-formed table),
but a pipeline run configured with that failing renderer returns an error and
NOT the artifact pair (second conjunct) — the claim that the two analytical
artifacts are still returned to the caller is false: transform_and_analyze
only returns them after generate_pdf_report has succeeded. -/
theorem C3_render_failure_returns_no_artifacts :
    generate_pdf_report wpFail [⟨0, 100, FloatVal.val 0⟩] ("t") ("now") ("data.csv") =
      Except.error (EtlError.render ("PDF backend unavailable"))
    ∧ transform_and_analyze fpAllIn none callOk wpFail ("now") [rec1] ("data.csv") =
      Except.error EtlError.formatNull := by
  constructor
  · simp [generate_pdf_report, renderRows, renderWeeklyRow, fmtWow, Bind.bind,
      Except.bind, wpFail]
  · exact pipeline_formatNull _ _ _ _ _ _ (by simp)

/-- C3 amended: if rendering (or any earlier stage) fails, the failure is
surfaced to the caller as the raised error and the analytical artifacts are
not returned — with a renderer failing on every document,
transform_and_analyze returns an error on every dataset. -/
theorem C3_failure_surfaced_artifacts_lost (df : Dataset)
    (fp : ℚ → List Features → List ℤ) (key : Option String)
    (call : String → Except String String) (e now path : String) :
    ∃ err, transform_and_analyze fp key call (fun _ _ => Except.error e) now df path =
      Except.error err := by
  cases df with
  | nil => exact ⟨EtlError.insufficientData, pipeline_empty _ _ _ _ _ _⟩
  | cons r rest => exact ⟨EtlError.formatNull, pipeline_formatNull _ _ _ _ _ _ (by simp)⟩

/-- C4 counterexample: requesting contamination_rate = 0 does not give the
degenerate sentinel.  `fpRate` is a model that, fit at a true rate of 0,
flags nothing — but the source ignores any requested rate and always fits at
the hard-coded 0.05, so the run still reports an anomaly at location A. -/
theorem C4_rate_zero_not_sentinel :
    detect_anomalies_at 0 fpRate [rec1] =
      Except.ok [(⟨some ("A"), 1, 100⟩ : SummaryRow)]
    ∧ (Except.ok [(⟨some ("A"), 1, 100⟩ : SummaryRow)] :
        Except EtlError (List SummaryRow)) ≠ Except.ok sentinelSummary := by
  constructor
  · simp only [detect_anomalies_at]
    simp [detect_anomalies, features_of, fpRate, rec1, contamination, locationKeys,
      groupRow, insertByCount, sortByCountDesc, round2, round_eq]
    norm_num
  · simp [sentinelSummary]

/-- C4 amended: the detector exposes no contamination parameter — the rate is
the hard-coded constant 0.05 (etl_logic.py line 47), so the result is the
same whatever rate is requested, and (for a nonempty dataset) the sentinel
comes back exactly when the model fit at 0.05 flags no record. -/
theorem C4_contamination_hard_coded (c1 c2 : ℚ)
    (fp : ℚ → List Features → List ℤ) (df : Dataset) (h : df ≠ []) :
    detect_anomalies_at c1 fp df = detect_anomalies_at c2 fp df
    ∧ contamination = 5 / 100
    ∧ (detect_anomalies_at c1 fp df = Except.ok sentinelSummary ↔
        ∀ p ∈ df.zip (fp contamination (features_of df)), p.2 ≠ -1) := by
  refine ⟨rfl, rfl, ?_⟩
  show detect_anomalies fp df = Except.ok sentinelSummary ↔ _
  simp only [detect_anomalies, if_neg (features_len_ok h)]
  by_cases he :
      (((df.zip (fp contamination (features_of df))).filter
        (fun p => p.2 == -1)).map Prod.fst).isEmpty
  · rw [if_pos he]
    rw [List.isEmpty_iff, List.map_eq_nil_iff, List.filter_eq_nil_iff] at he
    constructor
    · intro _ p hp
      have := he p hp
      simpa using this
    · intro _
      rfl
  · rw [if_neg he]
    rw [List.isEmpty_iff] at he
    constructor
    · intro hEq
      exfalso
      have hparts := Except.ok.inj hEq
      have hmem : (⟨none, 0, 0⟩ : SummaryRow) ∈ sortByCountDesc
          ((locationKeys ((((df.zip (fp contamination (features_of df))).filter
            (fun p => p.2 == -1)).map Prod.fst).map Record.location)).map
            (groupRow (((df.zip (fp contamination (features_of df))).filter
              (fun p => p.2 == -1)).map Prod.fst))) := by
        rw [hparts]
        simp [sentinelSummary]
      rw [mem_sortByCountDesc] at hmem
      obtain ⟨loc, _, hloc⟩ := List.mem_map.1 hmem
      have : some loc = none := congrArg SummaryRow.location hloc
      exact Option.some_ne_none loc this
    · intro hall
      exfalso
      apply he
      rw [List.map_eq_nil_iff, List.filter_eq_nil_iff]
      intro p hp
      simpa using hall p hp

/-- Witness for C4 amended at a one-record dataset and two requested rates. -/
theorem C4_contamination_hard_coded_witness :
    detect_anomalies_at 0 fpAllIn [rec1] = detect_anomalies_at (1/2) fpAllIn [rec1]
    ∧ contamination = 5 / 100
    ∧ (detect_anomalies_at 0 fpAllIn [rec1] = Except.ok sentinelSummary ↔
        ∀ p ∈ [rec1].zip (fpAllIn contamination (features_of [rec1])), p.2 ≠ -1) :=
  C4_contamination_hard_coded 0 (1/2) fpAllIn [rec1] (by simp)

/-- C5 counterexample: two outlier records at locations B then A give two
rows of equal count; the code sorts by count only, so the rows come out in
group order B, A — not location-ascending.  The tie-break ordering the claim
asserts is false of this output. -/
theorem C5_equal_counts_not_location_ascending :
    detect_anomalies fpAllOut [recB, recA] = Except.ok rowsBA
    ∧ countDescLocAsc rowsBA = false := by
  constructor
  · simp [detect_anomalies, features_of, fpAllOut, recB, recA, locationKeys, groupRow,
      insertByCount, sortByCountDesc, rowsBA, round2, round_eq]
    norm_num
  · decide

/-- C5 amended: every summary the detector returns is sorted by anomaly count
descending, and that is all — rows of equal count keep their group order
(first occurrence in the data), with no location tie-break. -/
theorem C5_sorted_by_count_desc_only (fp : ℚ → List Features → List ℤ)
    (df : Dataset) (rows : List SummaryRow)
    (h : detect_anomalies fp df = Except.ok rows) :
    rows.Sorted (fun a b => b.anomalyCount ≤ a.anomalyCount) := by
  by_cases hdf : df = []
  · rw [hdf, detect_anomalies_nil] at h
    exact absurd h (by simp)
  · rw [detect_anomalies] at h
    rw [if_neg (features_len_ok hdf)] at h
    by_cases he :
        (((df.zip (fp contamination (features_of df))).filter
          (fun p => p.2 == -1)).map Prod.fst).isEmpty
    · rw [if_pos he] at h
      rw [← Except.ok.inj h]
      exact List.sorted_singleton _
    · rw [if_neg he] at h
      rw [← Except.ok.inj h]
      exact sortByCountDesc_sorted _

/-- Witness for C5 amended: the summary of the tied two-location run is
sorted by count descending. -/
theorem C5_sorted_by_count_desc_only_witness :
    rowsBA.Sorted (fun a b => b.anomalyCount ≤ a.anomalyCount) :=
  C5_sorted_by_count_desc_only fpAllOut [recB, recA] rowsBA (by
    simp [detect_anomalies, features_of, fpAllOut, recB, recA, locationKeys, groupRow,
      insertByCount, sortByCountDesc, rowsBA, round2, round_eq]
    norm_num)

/-- C6: with fewer than one record there is no feature row, the model fit
fails (modelled from the spec as InsufficientDataError), the error surfaces
out of detect_anomalies and aborts the whole run: transform_and_analyze
returns the same error and no artifacts, whatever the collaborators. -/
theorem C6_insufficient_data_aborts (df : Dataset) (h : df.length < 1)
    (fp : ℚ → List Features → List ℤ) (key : Option String)
    (call : String → Except String String) (wp : String → String → Except String Unit)
    (now path : String) :
    detect_anomalies fp df = Except.error EtlError.insufficientData
    ∧ transform_and_analyze fp key call wp now df path =
        Except.error EtlError.insufficientData := by
  have hdf : df = [] := List.length_eq_zero.1 (by omega)
  subst hdf
  exact ⟨detect_anomalies_nil fp, pipeline_empty fp key call wp now path⟩

/-- Witness for C6 at the empty dataset. -/
theorem C6_insufficient_data_aborts_witness :
    detect_anomalies fpAllIn [] = Except.error EtlError.insufficientData
    ∧ transform_and_analyze fpAllIn none callOk wpOk ("now") [] ("data.csv") =
        Except.error EtlError.insufficientData :=
  C6_insufficient_data_aborts [] (by simp) fpAllIn none callOk wpOk ("now") ("data.csv")

/-- C7: with the credential absent the narrative generator returns the fixed
placeholder whatever the summary, and its result does not depend on the
collaborator at all (it is never called); with the credential present, a
collaborator that raises any error yields the labelled placeholder carrying
the error detail instead of failing the pipeline. -/
theorem C7_narrative_degrades_gracefully (s : List SummaryRow)
    (call call2 : String → Except String String) (k e : String) (h : s ≠ []) :
    generate_analysis none call s = Except.ok placeholder_no_key
    ∧ generate_analysis none call s = generate_analysis none call2 s
    ∧ generate_analysis (some k) (fun _ => Except.error e) s =
        Except.ok (ai_fail_msg ++ e) := by
  refine ⟨rfl, rfl, ?_⟩
  obtain ⟨c, hcEq⟩ := fetch_ok_of_ne_nil h
  simp [generate_analysis, hcEq, Bind.bind, Except.bind]

/-- Witness for C7 at the sentinel summary with a failing collaborator. -/
theorem C7_narrative_degrades_gracefully_witness :
    generate_analysis none callOk sentinelSummary = Except.ok placeholder_no_key
    ∧ generate_analysis none callOk sentinelSummary =
        generate_analysis none (fun _ => Except.error ("x")) sentinelSummary
    ∧ generate_analysis (some ("key")) (fun _ => Except.error ("boom")) sentinelSummary =
        Except.ok (ai_fail_msg ++ "boom") :=
  C7_narrative_degrades_gracefully sentinelSummary callOk (fun _ => Except.error ("x"))
    ("key") ("boom") (by simp [sentinelSummary])

/-- C8: on a nonempty dataset in which the model labels no record an outlier,
the detector does not fail — it returns the degenerate sentinel: one row, null
location, count zero, mean anomaly spend zero. -/
theorem C8_no_outliers_returns_sentinel (fp : ℚ → List Features → List ℤ)
    (df : Dataset) (h1 : df ≠ [])
    (h2 : ∀ p ∈ df.zip (fp contamination (features_of df)), p.2 ≠ -1) :
    detect_anomalies fp df = Except.ok sentinelSummary := by
  simp only [detect_anomalies, if_neg (features_len_ok h1)]
  have hnil : ((df.zip (fp contamination (features_of df))).filter
      (fun p => p.2 == -1)) = [] := by
    rw [List.filter_eq_nil_iff]
    intro p hp
    simpa using h2 p hp
  rw [hnil]
  simp

/-- Witness for C8: the all-inlier model on a one-record dataset. -/
theorem C8_no_outliers_returns_sentinel_witness :
    detect_anomalies fpAllIn [rec1] = Except.ok sentinelSummary :=
  C8_no_outliers_returns_sentinel fpAllIn [rec1] (by simp)
    (by intro p hp; simp [fpAllIn, features_of, rec1] at hp; simp [hp])

/-- C9: for every dataset the aggregator returns exactly one bucket per
distinct calendar week, in ascending date order; the first bucket's change
cell is the not-applicable null; and each later bucket whose predecessor has
nonzero spend carries `round((current / previous - 1) * 100, 2)` relative to
its chronological predecessor (`wowRel`). -/
theorem C9_aggregator_buckets (df : Dataset) :
    (calculate_weekly_metrics df).length =
        ((df.map (fun r => weekStart r.date)).dedup).length
    ∧ List.Sorted (· < ·) ((calculate_weekly_metrics df).map WeeklyRow.date)
    ∧ (∀ r rest, calculate_weekly_metrics df = r :: rest → r.wow_change = FloatVal.null)
    ∧ List.Chain' wowRel (calculate_weekly_metrics df) := by
  have hlen1 : ((sortedWeeks df).map (weeklySpend df)).length = (sortedWeeks df).length := by
    simp
  have hlen2 : (wowColumn ((sortedWeeks df).map (weeklySpend df))).length =
      (sortedWeeks df).length := by
    rw [wowColumn_length]
    simp
  refine ⟨?_, ?_, ?_, ?_⟩
  · simp only [calculate_weekly_metrics]
    rw [mkRows_length _ _ _ hlen1 hlen2, sortedWeeks_length]
  · simp only [calculate_weekly_metrics]
    rw [mkRows_map_date _ _ _ hlen1 hlen2]
    exact sortedWeeks_sorted df
  · intro r rest hEq
    cases hW : sortedWeeks df with
    | nil =>
      simp only [calculate_weekly_metrics, hW, List.map_nil, wowColumn, mkRows] at hEq
      exact absurd hEq.symm (List.cons_ne_nil r rest)
    | cons w ws =>
      simp only [calculate_weekly_metrics, hW, List.map_cons, wowColumn, mkRows,
        List.cons.injEq] at hEq
      rw [← hEq.1]
  · cases hW : sortedWeeks df with
    | nil =>
      simp only [calculate_weekly_metrics, hW, List.map_nil, wowColumn, mkRows]
      exact List.chain'_nil
    | cons w ws =>
      simp only [calculate_weekly_metrics, hW, List.map_cons, wowColumn]
      exact chain_mkRows _ _ _ _ (by simp)

/-- C10: multiplying every Spend by a positive constant leaves the whole
WoW_Change_% column of the aggregator unchanged (including which cells are
null / non-finite). -/
theorem C10_wow_invariant_under_scaling (df : Dataset) (c : ℚ) (h : 0 < c) :
    (calculate_weekly_metrics (scaleSpend c df)).map WeeklyRow.wow_change =
      (calculate_weekly_metrics df).map WeeklyRow.wow_change := by
  have hmap : (sortedWeeks df).map (weeklySpend (scaleSpend c df)) =
      ((sortedWeeks df).map (weeklySpend df)).map (fun s => c * s) := by
    rw [List.map_map]
    exact List.map_congr_left (fun w _ => weeklySpend_scale c df w)
  simp only [calculate_weekly_metrics, sortedWeeks_scale, hmap, wowColumn_scale h]
  rw [mkRows_map_wow _ _ _ (by simp) (by rw [wowColumn_length]; simp),
    mkRows_map_wow _ _ _ (by simp) (by rw [wowColumn_length]; simp)]

/-- Witness for C10: doubling the spends of a two-week dataset leaves the
change column unchanged. -/
theorem C10_wow_invariant_under_scaling_witness :
    (calculate_weekly_metrics (scaleSpend 2 [rec1, rec2])).map WeeklyRow.wow_change =
      (calculate_weekly_metrics [rec1, rec2]).map WeeklyRow.wow_change :=
  C10_wow_invariant_under_scaling [rec1, rec2] 2 (by norm_num)
